import Mathlib

/-!
Shallow embedding of the delivery core of the whatsapp-gateway-for-n8n
repository: the `MessageQueue` of the queue module, the `WhatsAppService`
session lifecycle of `src/services/whatsappService.js`, and the
`POST /send` route handler of `src/routes/whatsapp.js`.

The queue is modelled as an explicit state record; the event-loop steps of
`process()` are split into `beginBatch` (the synchronous prefix: guard on
the `processing` flag and splice of up to `concurrency` items) and
`finishBatch` (the awaited part: run `processMessage` on every batch item,
then settle each caller promise and bump the counters, then clear the
`processing` flag).  Timing-only configuration (`messageDelay`,
`retryDelay`) has no modelled observable and is omitted.
-/

namespace Gateway

/-- Queue configuration, from `config.queue`: `maxRetries` (default 3) and
`concurrency` (default 1). -/
structure QueueConfig where
  maxRetries : Nat
  concurrency : Nat
deriving Repr, DecidableEq

/-- One queued message, as pushed by `MessageQueue.add`: generated unique
`id`, the options `{to, message}` payload, and the `attempts` counter
(starting at 0).  `addedAt` is timing-only and omitted. -/
structure QueueItem where
  id : Nat
  dest : String
  content : String
  attempts : Nat
deriving Repr, DecidableEq

/-- Settlement state of the caller promise created by `MessageQueue.add`.
A JS promise settles at most once; later `resolve`/`reject` calls are
no-ops.  `rejectedRetryPending a m` records a rejection with the
`AppError` message `Message will be retried (a/m)`; `rejectedPermanent a`
records `Failed to send message after a attempts`. -/
inductive PromiseState where
  | pending
  | resolved
  | rejectedRetryPending (attempts maxRetries : Nat)
  | rejectedPermanent (attempts : Nat)
deriving Repr, DecidableEq

/-- State of the `MessageQueue` singleton.  `queue` is the backlog
(`this.queue`); `inFlight` is the batch spliced out by `process()` and not
yet settled; `promises` maps each item id to its caller promise's
settlement state; `attemptEvents` is an observation log recording
`(id, attempts)` at every `processMessage` invocation, in chronological
order — it influences no behaviour and exists to state temporal
invariants; `nextId` embeds the unique-id generator. -/
structure QueueState where
  queue : List QueueItem
  inFlight : List QueueItem
  processing : Bool
  messagesSent : Nat
  messagesQueued : Nat
  messagesFailed : Nat
  promises : Nat → PromiseState
  attemptEvents : List (Nat × Nat)
  nextId : Nat

/-- Queue state at construction time. -/
def initialQueueState : QueueState :=
  { queue := [], inFlight := [], processing := false, messagesSent := 0,
    messagesQueued := 0, messagesFailed := 0, promises := fun _ => .pending,
    attemptEvents := [], nextId := 0 }

/-- Settle the promise of item `i` to `v` — a no-op unless it is still
pending (JS promise semantics). -/
def settle (p : Nat → PromiseState) (i : Nat) (v : PromiseState) :
    Nat → PromiseState :=
  fun j => if j = i then (match p i with | .pending => v | s => s) else p j

/-- `MessageQueue.add(sendFunction, options)`: increment `messagesQueued`,
generate a fresh id, push the item with `attempts = 0` to the tail of the
backlog, and hand the caller the (pending) promise, here identified by the
item id.  (The `if (!this.processing) this.process()` trigger is the
separate `beginBatch` step.) -/
def MessageQueue.add (st : QueueState) (dest content : String) :
    Nat × QueueState :=
  (st.nextId,
   { st with
       messagesQueued := st.messagesQueued + 1
       queue := st.queue ++ [{ id := st.nextId, dest := dest, content := content,
                               attempts := 0 }]
       nextId := st.nextId + 1 })

/-- A send oracle: outcome of `sendFunction` for a given item id at a given
(1-based) attempt number. -/
def SendOracle : Type := Nat → Nat → Bool

/-- Run `processMessage` on each batch item in order, then apply the
settlement that `process()` performs on that item's outcome.  Per item:
increment `attempts`; on send success the result is fulfilled, so
`process()` resolves the caller promise and increments `messagesSent`; on
send failure with `attempts < maxRetries`, `processMessage` unshifts the
item (with its incremented counter) onto the front of the backlog and
rejects with `Message will be retried (a/m)` — `process()` then rejects
the caller promise with that reason and increments `messagesFailed`; at
`attempts ≥ maxRetries` it rejects permanently.  (In the source the
settlements happen in a second loop after `Promise.allSettled`; the
per-item effects and totals are identical, so the two loops are fused
here.) -/
def processItems (cfg : QueueConfig) (send : SendOracle) :
    List QueueItem → QueueState → QueueState
  | [], st => st
  | m :: rest, st =>
    let a := m.attempts + 1
    let st1 : QueueState :=
      { st with attemptEvents := st.attemptEvents ++ [(m.id, a)] }
    if send m.id a then
      processItems cfg send rest
        { st1 with promises := settle st1.promises m.id .resolved,
                   messagesSent := st1.messagesSent + 1 }
    else if a < cfg.maxRetries then
      processItems cfg send rest
        { st1 with queue := { m with attempts := a } :: st1.queue,
                   promises := settle st1.promises m.id
                     (.rejectedRetryPending a cfg.maxRetries),
                   messagesFailed := st1.messagesFailed + 1 }
    else
      processItems cfg send rest
        { st1 with promises := settle st1.promises m.id
                     (.rejectedPermanent a),
                   messagesFailed := st1.messagesFailed + 1 }

/-- Synchronous prefix of `process()`: no-op if already processing or the
backlog is empty; otherwise set the `processing` flag and splice up to
`concurrency` items off the front of the backlog as the in-flight batch. -/
def beginBatch (cfg : QueueConfig) (st : QueueState) : QueueState :=
  if st.processing || st.queue.isEmpty then st
  else
    { st with processing := true,
              inFlight := st.queue.take cfg.concurrency,
              queue := st.queue.drop cfg.concurrency }

/-- Awaited remainder of `process()`: run the in-flight batch to
settlement, then clear the `processing` flag.  (The recursion into the
next batch is a further `beginBatch`/`finishBatch` pair.) -/
def finishBatch (cfg : QueueConfig) (send : SendOracle) (st : QueueState) :
    QueueState :=
  let st1 := processItems cfg send st.inFlight { st with inFlight := [] }
  { st1 with processing := false }

/-- `MessageQueue.clear()`: record the backlog length, empty the backlog,
return the count. -/
def MessageQueue.clear (st : QueueState) : Nat × QueueState :=
  (st.queue.length, { st with queue := [] })

/-- Shape of a `getStats()` snapshot. -/
structure QueueStats where
  queued : Nat
  sent : Nat
  failed : Nat
  total : Nat
  processing : Bool
deriving Repr, DecidableEq

/-- `MessageQueue.getStats()`. -/
def MessageQueue.getStats (st : QueueState) : QueueStats :=
  { queued := st.queue.length, sent := st.messagesSent,
    failed := st.messagesFailed, total := st.messagesQueued,
    processing := st.processing }

/-- The externally triggerable queue steps: an enqueue, the two halves of a
processing pass, and a clear. -/
inductive QOp where
  | add (dest content : String)
  | beginB
  | finishB
  | clearQ

/-- Apply one queue step. -/
def applyOp (cfg : QueueConfig) (send : SendOracle) (st : QueueState) :
    QOp → QueueState
  | .add t c => (MessageQueue.add st t c).2
  | .beginB => beginBatch cfg st
  | .finishB => finishBatch cfg send st
  | .clearQ => (MessageQueue.clear st).2

/-- Run a sequence of queue steps from the initial state. -/
def runOps (cfg : QueueConfig) (send : SendOracle) (ops : List QOp) :
    QueueState :=
  ops.foldl (applyOp cfg send) initialQueueState

/-- The attempts values recorded for item `i` in an event log, in
chronological order. -/
def eventsForL (i : Nat) (ev : List (Nat × Nat)) : List Nat :=
  (ev.filter (fun e => e.1 == i)).map (fun e => e.2)

/-- The attempts values recorded for item `i`, in chronological order. -/
def eventsFor (i : Nat) (st : QueueState) : List Nat :=
  eventsForL i st.attemptEvents

/-- Default configuration: `maxRetries = 3`, `concurrency = 1`. -/
def defaultConfig : QueueConfig := { maxRetries := 3, concurrency := 1 }

/-- Oracle for the retry scenarios: item 0 fails transport on its first
attempt and succeeds afterwards; every other item succeeds first try. -/
def failOnceOracle : SendOracle := fun i a => !(i == 0 && a == 1)

/-- The three-item, concurrency-1 scenario run to completion. -/
def scenarioThree : QueueState :=
  runOps defaultConfig failOnceOracle
    [.add "a" "m1", .add "a" "m2", .add "a" "m3",
     .beginB, .finishB, .beginB, .finishB, .beginB, .finishB,
     .beginB, .finishB]

/-- State of the `WhatsAppService` singleton: `client` is the external
session object (`this.client`, a token when present), `isInitialized` the
readiness flag, `initializationPromise` the shared in-flight (or resolved)
initialization promise, identified by a token.  `initCount` is an
observation counter of external initializations started (it influences no
behaviour); `nextToken` embeds fresh token generation. -/
structure ServiceState where
  client : Option Nat
  isInitialized : Bool
  initializationPromise : Option Nat
  initCount : Nat
  nextToken : Nat
deriving Repr, DecidableEq

/-- Service state at construction time. -/
def initialServiceState : ServiceState :=
  { client := none, isInitialized := false, initializationPromise := none,
    initCount := 0, nextToken := 0 }

/-- Synchronous part of `WhatsAppService.connect()`: if an initialization
promise already exists it is returned as-is; otherwise `_initialize()` is
started (one external initialization) and its promise is stored and
returned.  On the single-threaded event loop this whole step runs without
interleaving, so N concurrent callers are N consecutive applications. -/
def connect (st : ServiceState) : Nat × ServiceState :=
  match st.initializationPromise with
  | some p => (p, st)
  | none =>
    (st.nextToken,
     { st with initializationPromise := some st.nextToken,
               initCount := st.initCount + 1,
               nextToken := st.nextToken + 1 })

/-- `n` back-to-back `connect()` calls (concurrent callers on the event
loop), collecting the promise each caller receives. -/
def connectN : Nat → ServiceState → List Nat × ServiceState
  | 0, st => ([], st)
  | n + 1, st =>
    let r := connect st
    let rs := connectN n r.2
    (r.1 :: rs.1, rs.2)

/-- What the external session signals during one initialization attempt:
a `ready` event at time `t` (ms), an `auth_failure` at time `t`, or no
signal at all. -/
inductive InitSignal where
  | ready (t : Nat)
  | authFailure (t : Nat) (reason : String)
  | silence
deriving Repr, DecidableEq

/-- The initialization timeout of `_initialize()`: 120000 ms (2 minutes). -/
def initTimeoutMs : Nat := 120000

/-- Whether the environment delivers a ready/auth-failure signal before the
initialization timeout fires. -/
def signalsWithinBound : InitSignal → Bool
  | .ready t => decide (t < initTimeoutMs)
  | .authFailure t _ => decide (t < initTimeoutMs)
  | .silence => false

/-- `WhatsAppService._initialize()`, awaited: create the client object,
then race the `ready` event, the `auth_failure` event and the 120000 ms
timeout.  On `ready` first: mark initialized and resolve with the client.
Otherwise the `catch` block runs: clear `isInitialized` and
`initializationPromise` (the client object is _not_ cleared) and reject
with an `AppError` wrapping the cause.  `initCount` records that an
external initialization was started. -/
def initAttempt (sig : InitSignal) (st : ServiceState) :
    Except String Nat × ServiceState :=
  let c := st.nextToken
  let st1 : ServiceState :=
    { st with client := some c, initCount := st.initCount + 1,
              nextToken := st.nextToken + 1 }
  match sig with
  | .ready t =>
    if t < initTimeoutMs then
      (.ok c, { st1 with isInitialized := true,
                         initializationPromise := some c })
    else
      (.error "WhatsApp client initialization failed: Client initialization timed out",
       { st1 with isInitialized := false, initializationPromise := none })
  | .authFailure t r =>
    if t < initTimeoutMs then
      (.error ("WhatsApp client initialization failed: Authentication failed: " ++ r),
       { st1 with isInitialized := false, initializationPromise := none })
    else
      (.error "WhatsApp client initialization failed: Client initialization timed out",
       { st1 with isInitialized := false, initializationPromise := none })
  | .silence =>
    (.error "WhatsApp client initialization failed: Client initialization timed out",
     { st1 with isInitialized := false, initializationPromise := none })

/-- `connect()` composed with the awaited `_initialize()` outcome under the
environment `sig`.  When an initialization is already in flight, the stored
shared promise is returned and nothing new starts (its resolution belongs
to the attempt that created it, outside this step). -/
def connectRun (sig : InitSignal) (st : ServiceState) :
    Except String Nat × ServiceState :=
  match st.initializationPromise with
  | some p => (.ok p, st)
  | none => initAttempt sig st

/-- `WhatsAppService.destroy()`: only when `isInitialized` and a client
object exists does it call the external `client.destroy()` (outcome
`extOk`; on failure the error is rethrown as an `AppError`), clear
`isInitialized` and `initializationPromise`, and return `true`.  In every
other state it returns `false` and changes nothing.  The `client` field is
never cleared. -/
def destroy (extOk : Bool) (st : ServiceState) :
    Except String (Bool × ServiceState) :=
  if st.isInitialized && st.client.isSome then
    if extOk then
      .ok (true, { st with isInitialized := false,
                           initializationPromise := none })
    else .error "Failed to destroy client"
  else .ok (false, st)

/-- A ready service state: client present, initialized, resolved
initialization promise stored. -/
def readyServiceState : ServiceState :=
  { client := some 0, isInitialized := true, initializationPromise := some 0,
    initCount := 1, nextToken := 1 }

/-- `readyServiceState` after a successful `destroy()`. -/
def destroyedServiceState : ServiceState :=
  { client := some 0, isInitialized := false, initializationPromise := none,
    initCount := 1, nextToken := 1 }

/-- The `AppError` of the error-handling module: a message and an HTTP
status code. -/
structure AppErrorM where
  message : String
  statusCode : Nat
deriving Repr, DecidableEq

/-- The body of a `POST /send` request; absent fields are `none`. -/
structure SendRequest where
  message : Option String
  title : Option String
  dest : Option String
  priority : Option String
deriving Repr, DecidableEq

/-- JS falsiness of a request field of string type: absent (`undefined`)
or the empty string. -/
def falsy : Option String → Bool
  | none => true
  | some s => s.isEmpty

/-- The `POST /send` route handler: validate `message` and `title`
(throwing `AppError('Title and message are required fields', 400)` before
anything touches the service or the queue), compose
`*title*\n\nmessage`, default the recipient to the configured admin
number, ensure the client is connected, then enqueue through
`sendMessage` (which itself rejects with a 400 `AppError` when the client
is not initialized).  Returns the outcome together with the resulting
service and queue states. -/
def sendHandler (admin : String) (sig : InitSignal) (req : SendRequest)
    (sst : ServiceState) (qst : QueueState) :
    Except AppErrorM Nat × ServiceState × QueueState :=
  if falsy req.message || falsy req.title then
    (.error { message := "Title and message are required fields",
              statusCode := 400 }, sst, qst)
  else
    let content := "*" ++ req.title.getD "" ++ "*\n\n" ++ req.message.getD ""
    let recipient := if falsy req.dest then admin else req.dest.getD ""
    match connectRun sig sst with
    | (.error e, sst1) =>
      (.error { message := e, statusCode := 500 }, sst1, qst)
    | (.ok _, sst1) =>
      if sst1.isInitialized then
        let r := MessageQueue.add qst recipient content
        (.ok r.1, sst1, r.2)
      else
        (.error { message := "WhatsApp client is not initialized",
                  statusCode := 400 }, sst1, qst)

/-- The HTTP outcome seen by the caller: status code and message, as
produced by the success path or by the `errorHandler` middleware for a
thrown `AppError`. -/
def respond : Except AppErrorM Nat → Nat × String
  | .error e => (e.statusCode, e.message)
  | .ok _ => (200, "Message queued successfully")

/-- A request whose `title` field is absent. -/
def missingTitleRequest : SendRequest :=
  { message := some "hello", title := none, dest := none, priority := none }

/-- The promise settlements and sent/failed counters produced by
processing a batch depend only on the batch items, the oracle and the
configuration — not on the backlog: two states agreeing on promises,
counters and the event log yield equal promises and counters after
processing the same items. -/
theorem processItems_frame (cfg : QueueConfig) (send : SendOracle) :
    ∀ (todo : List QueueItem) (s1 s2 : QueueState),
      s1.promises = s2.promises → s1.messagesSent = s2.messagesSent →
      s1.messagesFailed = s2.messagesFailed →
      s1.attemptEvents = s2.attemptEvents →
      (processItems cfg send todo s1).promises =
          (processItems cfg send todo s2).promises ∧
        (processItems cfg send todo s1).messagesSent =
          (processItems cfg send todo s2).messagesSent ∧
        (processItems cfg send todo s1).messagesFailed =
          (processItems cfg send todo s2).messagesFailed := by
  intro todo
  induction todo with
  | nil => intro s1 s2 h1 h2 h3 _; exact ⟨h1, h2, h3⟩
  | cons m rest ih =>
    intro s1 s2 h1 h2 h3 h4
    simp only [processItems]
    by_cases hs : send m.id (m.attempts + 1) = true
    · simp only [hs, if_true]
      exact ih _ _ (by simp [h1, h4]) (by simp [h2]) (by simp [h3])
        (by simp [h4])
    · simp only [hs, if_false]
      by_cases hr : m.attempts + 1 < cfg.maxRetries
      · simp only [hr, if_true]
        exact ih _ _ (by simp [h1, h4]) (by simp [h2]) (by simp [h3])
          (by simp [h4])
      · simp only [hr, if_false]
        exact ih _ _ (by simp [h1, h4]) (by simp [h2]) (by simp [h3])
          (by simp [h4])

/-- **C1** (code bug).  The claim says a send failure with
`attempts < maxRetries` must leave the caller's future pending until a
terminal outcome.  In the code, `process()` delivers the non-terminal
`Message will be retried (1/3)` rejection of `processMessage` straight to
the caller via `msg.reject`: after the first failed attempt of a single
item (attempts `1 < maxRetries = 3`, item re-queued with `attempts = 1`)
the caller promise is already settled as rejected, and after the
subsequent successful retry it is still that rejection (a JS promise
settles once) even though the send succeeded (`messagesSent = 1`). -/
theorem c1_nonterminal_failure_settles_promise :
    (runOps defaultConfig failOnceOracle
        [.add "a" "m", .beginB, .finishB]).promises 0 =
      .rejectedRetryPending 1 3 ∧
    (runOps defaultConfig failOnceOracle
        [.add "a" "m", .beginB, .finishB]).queue.map QueueItem.attempts =
      [1] ∧
    defaultConfig.maxRetries = 3 ∧
    (runOps defaultConfig failOnceOracle
        [.add "a" "m", .beginB, .finishB, .beginB, .finishB]).promises 0 =
      .rejectedRetryPending 1 3 ∧
    (runOps defaultConfig failOnceOracle
        [.add "a" "m", .beginB, .finishB, .beginB, .finishB]).messagesSent =
      1 := by
  decide

/-- **C2** (code bug).  Three items, `concurrency = 1`, the first item
fails once then succeeds.  The claim expects `sentTotal = 3`,
`failedTotal = 0` and item 1 resolving successfully after its retry.  The
code ends with `sent = 3` but `failed = 1` (the transient failure is
counted and the item is double-counted), and item 1's caller promise is
the `Message will be retried (1/3)` rejection, not a success; items 2 and
3 resolve successfully. -/
theorem c2_scenario_three_counts :
    MessageQueue.getStats scenarioThree =
      { queued := 0, sent := 3, failed := 1, total := 3,
        processing := false } ∧
    scenarioThree.promises 0 = .rejectedRetryPending 1 3 ∧
    scenarioThree.promises 1 = .resolved ∧
    scenarioThree.promises 2 = .resolved := by
  decide

/-- **C3** (confirmed).  While an initialization is in flight
(`initializationPromise = some p`), any number of `connect()` calls
return that same shared promise and leave the state untouched: no second
external initialization is started (`initCount` unchanged), and since all
callers hold the same promise they observe the identical eventual success
or failure. -/
theorem c3_connect_coalesces (n : Nat) (st : ServiceState) (p : Nat)
    (h : st.initializationPromise = some p) :
    connectN n st = (List.replicate n p, st) := by
  induction n with
  | zero => simp [connectN]
  | succ k ih => simp [connectN, connect, h, ih, List.replicate_succ]

/-- An in-flight initialization state for the C3 witness. -/
def inFlightServiceState : ServiceState :=
  { initialServiceState with initializationPromise := some 7 }

/-- Witness for C3 at `n = 3` on a concrete in-flight state. -/
theorem c3_connect_coalesces_witness :
    connectN 3 inFlightServiceState =
      (List.replicate 3 7, inFlightServiceState) :=
  c3_connect_coalesces 3 inFlightServiceState 7 rfl

/-- **C4** counterexample.  After an initialization attempt that timed
out, the client object still exists (`client.isSome`), yet `destroy()`
returns `false` and tears nothing down — contradicting both "tears down
the external session entirely regardless of phase" and "returns false
exactly when there was nothing to tear down". -/
theorem c4_destroy_counterexample :
    (connectRun .silence initialServiceState).2.client.isSome = true ∧
    destroy true (connectRun .silence initialServiceState).2 =
      .ok (false, (connectRun .silence initialServiceState).2) :=
  ⟨rfl, rfl⟩

/-- **C4** (corrected).  `destroy()` tears the session down only when the
service is initialized (ready) and a client object exists; in every other
state — including states where a session object exists but is not ready —
it does nothing and returns `false`.  So it returns `false` exactly when
`¬(isInitialized ∧ client present)`, not exactly when there was nothing
to tear down. -/
theorem c4_destroy_amended (st : ServiceState) (extOk : Bool) :
    ((st.isInitialized && st.client.isSome) = false →
      destroy extOk st = .ok (false, st)) ∧
    ((st.isInitialized && st.client.isSome) = true → extOk = true →
      destroy extOk st =
        .ok (true, { st with isInitialized := false,
                             initializationPromise := none })) := by
  constructor
  · intro h; simp [destroy, h]
  · intro h he; subst he; simp [destroy, h]

/-- Witness for the amended C4 on a concrete uninitialized state. -/
theorem c4_destroy_amended_witness :
    destroy true initialServiceState = .ok (false, initialServiceState) :=
  (c4_destroy_amended initialServiceState true).1 rfl

/-- `_initialize` always starts exactly one external initialization. -/
theorem initAttempt_initCount (sig : InitSignal) (s : ServiceState) :
    (initAttempt sig s).2.initCount = s.initCount + 1 := by
  cases sig <;> simp [initAttempt] <;> split <;> rfl

/-- When no ready/auth-failure signal arrives before the bound, the
attempt fails with the timeout error and resets the in-flight state. -/
theorem initAttempt_noSignal (sig : InitSignal) (s : ServiceState)
    (hb : signalsWithinBound sig = false) :
    initAttempt sig s =
      (.error "WhatsApp client initialization failed: Client initialization timed out",
       { s with client := some s.nextToken, isInitialized := false,
                initializationPromise := none, initCount := s.initCount + 1,
                nextToken := s.nextToken + 1 }) := by
  cases sig with
  | ready t =>
    simp only [signalsWithinBound, decide_eq_false_iff_not] at hb
    simp [initAttempt, hb]
  | authFailure t r =>
    simp only [signalsWithinBound, decide_eq_false_iff_not] at hb
    simp [initAttempt, hb]
  | silence => rfl

/-- **C5** (confirmed).  From an idle state, an `ensureReady` attempt
whose environment never signals ready or auth failure within the 120000 ms
bound rejects with the timeout error, resets the machine to idle
(`isInitialized = false`, no in-flight promise, client not cleared as a
ready handle), and a subsequent `connect` under any environment starts a
fresh external initialization. -/
theorem c5_init_timeout_resets (st : ServiceState) (sig sig2 : InitSignal)
    (h : st.initializationPromise = none)
    (hb : signalsWithinBound sig = false) :
    initTimeoutMs = 120000 ∧
    (connectRun sig st).1 =
      .error "WhatsApp client initialization failed: Client initialization timed out" ∧
    (connectRun sig st).2.isInitialized = false ∧
    (connectRun sig st).2.initializationPromise = none ∧
    (connectRun sig st).2.initCount = st.initCount + 1 ∧
    (connectRun sig2 (connectRun sig st).2).2.initCount = st.initCount + 2 := by
  have hrun : connectRun sig st =
      (.error "WhatsApp client initialization failed: Client initialization timed out",
       { st with client := some st.nextToken, isInitialized := false,
                 initializationPromise := none, initCount := st.initCount + 1,
                 nextToken := st.nextToken + 1 }) := by
    simp [connectRun, h, initAttempt_noSignal sig st hb]
  refine ⟨rfl, ?_, ?_, ?_, ?_, ?_⟩
  · rw [hrun]
  · rw [hrun]
  · rw [hrun]
  · rw [hrun]
  · rw [hrun]
    simp [connectRun, initAttempt_initCount]

/-- Witness for C5: silent environment from the initial state. -/
theorem c5_init_timeout_resets_witness :
    initTimeoutMs = 120000 ∧
    (connectRun .silence initialServiceState).1 =
      .error "WhatsApp client initialization failed: Client initialization timed out" ∧
    (connectRun .silence initialServiceState).2.isInitialized = false ∧
    (connectRun .silence initialServiceState).2.initializationPromise =
      none ∧
    (connectRun .silence initialServiceState).2.initCount =
      initialServiceState.initCount + 1 ∧
    (connectRun .silence
        (connectRun .silence initialServiceState).2).2.initCount =
      initialServiceState.initCount + 2 :=
  c5_init_timeout_resets initialServiceState .silence .silence rfl rfl

/-- **C6** (confirmed).  `clear()` returns exactly the backlog length and
empties the backlog in one step; the in-flight batch is untouched and not
counted, and finishing that batch produces the same promise settlements
and the same sent/failed counters whether or not the clear intervened —
dispatched items complete or fail independently. -/
theorem c6_clear_backlog_only (cfg : QueueConfig) (send : SendOracle)
    (st : QueueState) :
    (MessageQueue.clear st).1 = st.queue.length ∧
    (MessageQueue.clear st).2.queue = [] ∧
    (MessageQueue.clear st).2.inFlight = st.inFlight ∧
    (finishBatch cfg send (MessageQueue.clear st).2).promises =
      (finishBatch cfg send st).promises ∧
    (finishBatch cfg send (MessageQueue.clear st).2).messagesSent =
      (finishBatch cfg send st).messagesSent ∧
    (finishBatch cfg send (MessageQueue.clear st).2).messagesFailed =
      (finishBatch cfg send st).messagesFailed := by
  have h := processItems_frame cfg send st.inFlight
    { (MessageQueue.clear st).2 with inFlight := [] }
    { st with inFlight := [] } rfl rfl rfl rfl
  exact ⟨rfl, rfl, rfl, h.1, h.2.1, h.2.2⟩

/-- **C8** (confirmed).  A `POST /send` whose `message` or `title` field
is absent is rejected before the service or queue is touched: the
response is status 400 with exactly `Title and message are required
fields`, the queue state is returned unchanged, and its statistics
snapshot is identical. -/
theorem c8_send_missing_fields_rejected (admin : String) (sig : InitSignal)
    (req : SendRequest) (sst : ServiceState) (qst : QueueState)
    (h : req.message = none ∨ req.title = none) :
    sendHandler admin sig req sst qst =
      (.error { message := "Title and message are required fields",
                statusCode := 400 }, sst, qst) ∧
    respond (sendHandler admin sig req sst qst).1 =
      (400, "Title and message are required fields") ∧
    MessageQueue.getStats (sendHandler admin sig req sst qst).2.2 =
      MessageQueue.getStats qst := by
  have hv : (falsy req.message || falsy req.title) = true := by
    cases h with
    | inl h1 => simp [falsy, h1]
    | inr h1 => simp [falsy, h1]
  have hs : sendHandler admin sig req sst qst =
      (.error { message := "Title and message are required fields",
                statusCode := 400 }, sst, qst) := by
    simp [sendHandler, hv]
  refine ⟨hs, ?_, ?_⟩
  · rw [hs]; rfl
  · rw [hs]

/-- Witness for C8: a request with no `title`. -/
theorem c8_send_missing_fields_rejected_witness :
    sendHandler "admin" .silence missingTitleRequest initialServiceState
        initialQueueState =
      (.error { message := "Title and message are required fields",
                statusCode := 400 }, initialServiceState,
       initialQueueState) ∧
    respond (sendHandler "admin" .silence missingTitleRequest
        initialServiceState initialQueueState).1 =
      (400, "Title and message are required fields") ∧
    MessageQueue.getStats (sendHandler "admin" .silence missingTitleRequest
        initialServiceState initialQueueState).2.2 =
      MessageQueue.getStats initialQueueState :=
  c8_send_missing_fields_rejected "admin" .silence missingTitleRequest
    initialServiceState initialQueueState (Or.inr rfl)

/-- **C9** (confirmed).  If a `destroy()` call succeeded (returned
`true`), the next `destroy()` on the resulting state returns `false` and
raises no error, whatever the external teardown would have done — the
guard already fails, so the external call is never reached. -/
theorem c9_destroy_idempotent (st st' : ServiceState) (ok1 ok2 : Bool)
    (h : destroy ok1 st = .ok (true, st')) :
    destroy ok2 st' = .ok (false, st') := by
  simp only [destroy] at h
  split at h
  · split at h
    · simp only [Except.ok.injEq, Prod.mk.injEq, true_and] at h
      subst h
      simp [destroy]
    · exact absurd h (by simp)
  · simp at h
/-- Witness for C9: destroying a ready state, then destroying again. -/
theorem c9_destroy_idempotent_witness :
    destroy true destroyedServiceState =
      .ok (false, destroyedServiceState) :=
  c9_destroy_idempotent readyServiceState destroyedServiceState true true
    rfl

/-- **C10** (confirmed).  `clear()` touches only the backlog: the lifetime
counters and the processing flag are unchanged, so the statistics
snapshot after a clear differs from the one before only in `queued`,
which becomes 0. -/
theorem c10_clear_stats_frame (st : QueueState) :
    MessageQueue.getStats (MessageQueue.clear st).2 =
      { MessageQueue.getStats st with queued := 0 } ∧
    (MessageQueue.clear st).2.messagesSent = st.messagesSent ∧
    (MessageQueue.clear st).2.messagesFailed = st.messagesFailed ∧
    (MessageQueue.clear st).2.messagesQueued = st.messagesQueued ∧
    (MessageQueue.clear st).2.processing = st.processing :=
  ⟨rfl, rfl, rfl, rfl, rfl⟩

theorem eventsForL_append (i : Nat) (ev1 ev2 : List (Nat × Nat)) :
    eventsForL i (ev1 ++ ev2) = eventsForL i ev1 ++ eventsForL i ev2 := by
  simp [eventsForL, List.filter_append]

theorem eventsForL_single_eq (i a : Nat) : eventsForL i [(i, a)] = [a] := by
  simp [eventsForL]

theorem eventsForL_single_ne (i j a : Nat) (h : j ≠ i) :
    eventsForL i [(j, a)] = [] := by
  simp [eventsForL, h]

/-- The retry invariant over the live items (backlog plus in-flight items,
plus in mid-batch reasoning the not-yet-processed part of the batch), the
event log and the id-generator bound: every live item's counter mirrors
its number of recorded attempts and sits strictly below `maxRetries`;
live ids are below the generator bound and unused ids have no events;
every item's recorded attempts read `1, 2, …, k` in order with
`k ≤ maxRetries`; live ids are pairwise distinct. -/
structure InvCore (cfg : QueueConfig) (items : List QueueItem)
    (ev : List (Nat × Nat)) (nid : Nat) : Prop where
  live : ∀ it ∈ items, it.attempts = (eventsForL it.id ev).length ∧
      it.attempts < cfg.maxRetries ∧ it.id < nid
  fresh : ∀ i, nid ≤ i → eventsForL i ev = []
  consec : ∀ i, eventsForL i ev = List.range' 1 (eventsForL i ev).length
  cap : ∀ i, (eventsForL i ev).length ≤ cfg.maxRetries
  distinct : items.Pairwise (fun a b => a.id ≠ b.id)

/-- The full queue-state invariant: the core invariant on live items, and
an idle loop has no in-flight batch. -/
def Inv (cfg : QueueConfig) (st : QueueState) : Prop :=
  InvCore cfg (st.queue ++ st.inFlight) st.attemptEvents st.nextId ∧
  (st.processing = false → st.inFlight = [])

theorem InvCore_perm (cfg : QueueConfig) {items items' : List QueueItem}
    {ev : List (Nat × Nat)} {nid : Nat} (hp : items.Perm items')
    (h : InvCore cfg items ev nid) : InvCore cfg items' ev nid := by
  refine ⟨fun it hit => h.live it (hp.symm.subset hit), h.fresh, h.consec,
    h.cap, ?_⟩
  exact (hp.pairwise_iff (fun hab => Ne.symm hab)).1 h.distinct

/-- Enqueueing a fresh item preserves the core invariant (the fresh item
enters with `attempts = 0` and an unused id). -/
theorem InvCore_add (cfg : QueueConfig) (items : List QueueItem)
    (ev : List (Nat × Nat)) (nid : Nat) (t c : String)
    (h1 : 1 ≤ cfg.maxRetries) (h : InvCore cfg items ev nid) :
    InvCore cfg
      (({ id := nid, dest := t, content := c, attempts := 0 } :
          QueueItem) :: items) ev (nid + 1) := by
  refine ⟨?_, ?_, h.consec, h.cap, ?_⟩
  · intro it hit
    rcases List.mem_cons.1 hit with rfl | hit'
    · exact ⟨by simp [h.fresh nid le_rfl], h1, Nat.lt_succ_self nid⟩
    · obtain ⟨u1, u2, u3⟩ := h.live it hit'
      exact ⟨u1, u2, Nat.lt_succ_of_lt u3⟩
  · intro i hi
    exact h.fresh i (Nat.le_of_succ_le hi)
  · refine List.pairwise_cons.2 ⟨?_, h.distinct⟩
    intro b hb
    exact Nat.ne_of_gt (h.live b hb).2.2

/-- Processing one item extends its event run by exactly the next value
and preserves the core invariant, both when the item leaves the system
and when it is re-queued with the incremented counter (only possible
while still below `maxRetries`). -/
theorem InvCore_event (cfg : QueueConfig) (m : QueueItem)
    (items : List QueueItem) (ev : List (Nat × Nat)) (nid : Nat)
    (h : InvCore cfg (m :: items) ev nid) :
    (eventsForL m.id (ev ++ [(m.id, m.attempts + 1)])).length =
        m.attempts + 1 ∧
    InvCore cfg items (ev ++ [(m.id, m.attempts + 1)]) nid ∧
    (m.attempts + 1 < cfg.maxRetries →
      InvCore cfg ({ m with attempts := m.attempts + 1 } :: items)
        (ev ++ [(m.id, m.attempts + 1)]) nid) := by
  obtain ⟨hhead, htail⟩ := List.pairwise_cons.1 h.distinct
  obtain ⟨hma, hmr, hmn⟩ := h.live m (List.mem_cons_self m items)
  have hne : ∀ i, m.id ≠ i →
      eventsForL i (ev ++ [(m.id, m.attempts + 1)]) = eventsForL i ev := by
    intro i hi
    rw [eventsForL_append, eventsForL_single_ne i m.id _ hi, List.append_nil]
  have heq : eventsForL m.id (ev ++ [(m.id, m.attempts + 1)]) =
      eventsForL m.id ev ++ [m.attempts + 1] := by
    rw [eventsForL_append, eventsForL_single_eq]
  have hlen : (eventsForL m.id (ev ++ [(m.id, m.attempts + 1)])).length =
      m.attempts + 1 := by
    rw [heq]; simp [← hma]
  have hcap2 : (eventsForL m.id (ev ++ [(m.id, m.attempts + 1)])).length ≤
      cfg.maxRetries := by rw [hlen]; exact hmr
  have hrange : eventsForL m.id (ev ++ [(m.id, m.attempts + 1)]) =
      List.range' 1 (eventsForL m.id
        (ev ++ [(m.id, m.attempts + 1)])).length := by
    rw [hlen, heq, h.consec m.id, ← hma, List.range'_concat]
    simp [Nat.add_comm]
  have hcore : InvCore cfg items (ev ++ [(m.id, m.attempts + 1)]) nid := by
    refine ⟨?_, ?_, ?_, ?_, htail⟩
    · intro it hit
      obtain ⟨u1, u2, u3⟩ := h.live it (List.mem_cons_of_mem m hit)
      exact ⟨by rw [hne it.id (hhead it hit)]; exact u1, u2, u3⟩
    · intro i hi
      have hmi : m.id ≠ i := by omega
      rw [hne i hmi]
      exact h.fresh i hi
    · intro i
      by_cases hi : m.id = i
      · subst hi; exact hrange
      · rw [hne i hi]; exact h.consec i
    · intro i
      by_cases hi : m.id = i
      · subst hi; exact hcap2
      · rw [hne i hi]; exact h.cap i
  refine ⟨hlen, hcore, ?_⟩
  intro hlt
  refine ⟨?_, hcore.fresh, hcore.consec, hcore.cap, ?_⟩
  · intro it hit
    rcases List.mem_cons.1 hit with rfl | hit'
    · exact ⟨hlen.symm, hlt, hmn⟩
    · exact hcore.live it hit'
  · exact List.pairwise_cons.2 ⟨fun b hb => hhead b hb, htail⟩

/-- `processMessage` never touches the in-flight list of the state it
mutates. -/
theorem processItems_inFlight (cfg : QueueConfig) (send : SendOracle) :
    ∀ (todo : List QueueItem) (st : QueueState),
      (processItems cfg send todo st).inFlight = st.inFlight := by
  intro todo
  induction todo with
  | nil => intro st; rfl
  | cons m rest ih =>
    intro st
    simp only [processItems]
    by_cases hs : send m.id (m.attempts + 1) = true
    · rw [if_pos hs, ih]
    · rw [if_neg hs]
      by_cases hr : m.attempts + 1 < cfg.maxRetries
      · rw [if_pos hr, ih]
      · rw [if_neg hr, ih]

/-- Running a batch preserves the core invariant over the remaining live
items. -/
theorem processItems_inv (cfg : QueueConfig) (send : SendOracle) :
    ∀ (todo : List QueueItem) (st : QueueState),
      InvCore cfg (todo ++ (st.queue ++ st.inFlight)) st.attemptEvents
          st.nextId →
      InvCore cfg
        ((processItems cfg send todo st).queue ++
          (processItems cfg send todo st).inFlight)
        (processItems cfg send todo st).attemptEvents
        (processItems cfg send todo st).nextId := by
  intro todo
  induction todo with
  | nil => intro st h; exact h
  | cons m rest ih =>
    intro st h
    have hstep := InvCore_event cfg m (rest ++ (st.queue ++ st.inFlight))
      st.attemptEvents st.nextId h
    simp only [processItems]
    by_cases hs : send m.id (m.attempts + 1) = true
    · rw [if_pos hs]
      apply ih
      exact hstep.2.1
    · rw [if_neg hs]
      by_cases hr : m.attempts + 1 < cfg.maxRetries
      · rw [if_pos hr]
        apply ih
        refine InvCore_perm cfg ?_ (hstep.2.2 hr)
        exact List.perm_middle.symm
      · rw [if_neg hr]
        apply ih
        exact hstep.2.1

/-- Every queue step preserves the full invariant (for a retry budget of
at least one attempt). -/
theorem applyOp_inv (cfg : QueueConfig) (send : SendOracle)
    (h1 : 1 ≤ cfg.maxRetries) (st : QueueState) (op : QOp)
    (h : Inv cfg st) : Inv cfg (applyOp cfg send st op) := by
  obtain ⟨hc, hp⟩ := h
  cases op with
  | add t c =>
    refine ⟨?_, hp⟩
    refine InvCore_perm cfg ?_ (InvCore_add cfg _ _ _ t c h1 hc)
    show (({ id := st.nextId, dest := t, content := c, attempts := 0 } :
          QueueItem) :: (st.queue ++ st.inFlight)).Perm
      ((st.queue ++
          [{ id := st.nextId, dest := t, content := c, attempts := 0 }]) ++
        st.inFlight)
    rw [List.append_assoc, List.singleton_append]
    exact List.perm_middle.symm
  | beginB =>
    by_cases hg : (st.processing || st.queue.isEmpty) = true
    · have hred : applyOp cfg send st .beginB = st := by
        simp [applyOp, beginBatch, hg]
      rw [hred]
      exact ⟨hc, hp⟩
    · simp only [Bool.or_eq_true, not_or, Bool.not_eq_true] at hg
      have hfl : st.inFlight = [] := hp hg.1
      have hred : applyOp cfg send st .beginB =
          { st with processing := true,
                    inFlight := st.queue.take cfg.concurrency,
                    queue := st.queue.drop cfg.concurrency } := by
        simp [applyOp, beginBatch, hg.1, hg.2]
      rw [hred]
      have hc' : InvCore cfg st.queue st.attemptEvents st.nextId := by
        rw [hfl, List.append_nil] at hc; exact hc
      have hperm : st.queue.Perm
          (st.queue.drop cfg.concurrency ++
            st.queue.take cfg.concurrency) := by
        conv_lhs => rw [← List.take_append_drop cfg.concurrency st.queue]
        exact List.perm_append_comm
      exact ⟨InvCore_perm cfg hperm hc', fun habs => nomatch habs⟩
  | finishB =>
    have hpre : InvCore cfg
        (st.inFlight ++ (st.queue ++ ([] : List QueueItem)))
        st.attemptEvents st.nextId := by
      refine InvCore_perm cfg ?_ hc
      simpa using List.perm_append_comm
    have hpost := processItems_inv cfg send st.inFlight
      { st with inFlight := [] } hpre
    have hfl2 : (processItems cfg send st.inFlight
        { st with inFlight := [] }).inFlight = [] := by
      rw [processItems_inFlight]
    exact ⟨hpost, fun _ => hfl2⟩
  | clearQ =>
    refine ⟨?_, hp⟩
    refine ⟨?_, hc.fresh, hc.consec, hc.cap, ?_⟩
    · intro it hit
      have hit' : it ∈ st.inFlight := by
        simpa [applyOp, MessageQueue.clear] using hit
      exact hc.live it (List.mem_append_right _ hit')
    · have hpw := (List.pairwise_append.1 hc.distinct).2.1
      simpa using hpw

/-- The invariant holds initially. -/
theorem initial_inv (cfg : QueueConfig) : Inv cfg initialQueueState :=
  ⟨⟨fun it hit => absurd hit (by simp [initialQueueState]),
    fun _ _ => rfl, fun _ => rfl, fun _ => Nat.zero_le _,
    List.Pairwise.nil⟩, fun _ => rfl⟩

/-- The invariant holds after any sequence of queue steps. -/
theorem runOps_inv (cfg : QueueConfig) (send : SendOracle)
    (h1 : 1 ≤ cfg.maxRetries) (ops : List QOp) :
    Inv cfg (runOps cfg send ops) := by
  suffices hstep : ∀ (st : QueueState), Inv cfg st →
      Inv cfg (List.foldl (applyOp cfg send) st ops) from
    hstep initialQueueState (initial_inv cfg)
  induction ops with
  | nil => intro st h; exact h
  | cons op rest ih =>
    intro st h
    exact ih _ (applyOp_inv cfg send h1 st op h)

/-- **C7** (confirmed, for any retry budget of at least one attempt —
the configured default is `maxRetries = 3`).  Across every sequence of
queue operations: the attempts recorded for any item id are exactly
`1, 2, …, k` in chronological order (each item enters with `attempts = 0`
and the counter only ever steps up by one — monotonically non-decreasing),
their number `k` never exceeds `maxRetries`, and every live item's counter
is strictly below `maxRetries`. -/
theorem c7_attempts_monotone_capped (cfg : QueueConfig) (send : SendOracle)
    (hm : 1 ≤ cfg.maxRetries) (ops : List QOp) (i : Nat) :
    eventsFor i (runOps cfg send ops) =
      List.range' 1 (eventsFor i (runOps cfg send ops)).length ∧
    (eventsFor i (runOps cfg send ops)).length ≤ cfg.maxRetries ∧
    (∀ it ∈ (runOps cfg send ops).queue,
      it.attempts < cfg.maxRetries) ∧
    (∀ it ∈ (runOps cfg send ops).inFlight,
      it.attempts < cfg.maxRetries) := by
  obtain ⟨hcore, -⟩ := runOps_inv cfg send hm ops
  refine ⟨hcore.consec i, hcore.cap i, ?_, ?_⟩
  · intro it hit
    exact (hcore.live it (List.mem_append_left _ hit)).2.1
  · intro it hit
    exact (hcore.live it (List.mem_append_right _ hit)).2.1

/-- Witness for C7 on the default configuration and the single-item
fail-once run. -/
theorem c7_attempts_monotone_capped_witness :
    1 ≤ defaultConfig.maxRetries ∧
    (eventsFor 0 (runOps defaultConfig failOnceOracle
        [.add "a" "m", .beginB, .finishB, .beginB, .finishB]) =
      List.range' 1 (eventsFor 0 (runOps defaultConfig failOnceOracle
        [.add "a" "m", .beginB, .finishB, .beginB, .finishB])).length ∧
    (eventsFor 0 (runOps defaultConfig failOnceOracle
        [.add "a" "m", .beginB, .finishB, .beginB, .finishB])).length ≤
      defaultConfig.maxRetries ∧
    (∀ it ∈ (runOps defaultConfig failOnceOracle
        [.add "a" "m", .beginB, .finishB, .beginB, .finishB]).queue,
      it.attempts < defaultConfig.maxRetries) ∧
    (∀ it ∈ (runOps defaultConfig failOnceOracle
        [.add "a" "m", .beginB, .finishB, .beginB, .finishB]).inFlight,
      it.attempts < defaultConfig.maxRetries)) :=
  ⟨by decide,
   c7_attempts_monotone_capped defaultConfig failOnceOracle (by decide)
     [.add "a" "m", .beginB, .finishB, .beginB, .finishB] 0⟩

end Gateway
